import Mathlib

/-!
Verification of the ERCF filament-transport module (`extras/ercf.py`) against its
natural-language specification.  Distances are modelled as rationals (mm).
Each definition is a shallow embedding of the Python function named in its doc
comment; encoder readings and per-move slip values are environment inputs.
-/

namespace ERCF

/-! ## Constants (ercf.py lines 76-99) -/

def LONG_MOVE_THRESHOLD : ℚ := 85
def ENCODER_MIN : ℚ := 1

def SERVO_DOWN_STATE : Int := 1
def SERVO_UP_STATE : Int := 0
def SERVO_UNKNOWN_STATE : Int := -1

def TOOL_UNKNOWN : Int := -1

def GATE_UNKNOWN : Int := -1
def GATE_EMPTY : Int := 0
def GATE_AVAILABLE : Int := 1
def GATE_AVAILABLE_FROM_BUFFER : Int := 2

def LOADED_STATUS_UNKNOWN : Int := -1
def LOADED_STATUS_UNLOADED : Int := 0
def LOADED_STATUS_BEFORE_ENCODER : Int := 1
def LOADED_STATUS_PAST_ENCODER : Int := 2
def LOADED_STATUS_IN_BOWDEN : Int := 3
def LOADED_STATUS_END_OF_BOWDEN : Int := 4
def LOADED_STATUS_HOMED_EXTRUDER : Int := 5
def LOADED_STATUS_HOMED_SENSOR : Int := 6
def LOADED_STATUS_IN_EXTRUDER : Int := 7
def LOADED_STATUS_FULL : Int := 8

/-! ## Slip-tracing move primitive (`_trace_filament_move`, ercf.py 1525-1566) -/

/-- The four motor modes accepted by `_trace_filament_move`. -/
inductive Motor where
  | gear
  | extruder
  | both
  | synced
deriving Repr, DecidableEq

/-- Delta returned by `_trace_filament_move` (ercf.py 1560-1566): the encoder is
sampled before (`startDist`) and after (`endDist`) the underlying motion,
`measured = end - start`, and `delta = abs(distance) - measured`.  The same
computation is used in every motor mode. -/
def trace_filament_move_delta (motor : Motor) (distance startDist endDist : ℚ) : ℚ :=
  match motor with
  | _ => |distance| - (endDist - startDist)

/-! ## Encoder acquisition (`_load_encoder`, ercf.py 1692-1713) -/

structure LoadEncoderResult where
  /-- `some m`: the call returned the measured distance `m`; `none`: every retry
  failed and the pickup error was raised. -/
  measured : Option ℚ
  /-- Availability status written to the selected gate. -/
  gate_status : Int
  loaded_status : Int
  /-- Number of probe moves issued. -/
  attempts : Nat
deriving Repr, DecidableEq

/-- Retry loop of `_load_encoder` (ercf.py 1697-1713).  `sensed i` is the encoder
movement produced by probe move number `i` (each probe commands exactly
`LONG_MOVE_THRESHOLD` mm, so `_trace_filament_move` returns
`delta = abs(LONG_MOVE_THRESHOLD) - sensed i`); `acc` accumulates the total
encoder movement since `initial_encoder_position`.  An attempt succeeds when
`(LONG_MOVE_THRESHOLD - delta) > 6.0`; then the gate is marked
`max(current, GATE_AVAILABLE)` and the loaded status becomes past-encoder.  On
exhaustion the gate becomes `GATE_UNKNOWN`, the loaded status `UNLOADED`, and
the error is raised. -/
def load_encoder_go (sensed : Nat → ℚ) (gate_status_sel : Int) :
    Nat → Nat → ℚ → LoadEncoderResult
  | i, 0, _ => ⟨none, GATE_UNKNOWN, LOADED_STATUS_UNLOADED, i⟩
  | i, k + 1, acc =>
    let delta := |LONG_MOVE_THRESHOLD| - sensed i
    if LONG_MOVE_THRESHOLD - delta > 6 then
      ⟨some (acc + sensed i), max gate_status_sel GATE_AVAILABLE,
        LOADED_STATUS_PAST_ENCODER, i + 1⟩
    else
      load_encoder_go sensed gate_status_sel (i + 1) k (acc + sensed i)

/-- `_load_encoder` (ercf.py 1692-1713): `retries = load_encoder_retries` when
`retry` else 1 (the configured default of `load_encoder_retries` is 2). -/
def load_encoder (retry : Bool) (load_encoder_retries : Nat) (sensed : Nat → ℚ)
    (gate_status_sel : Int) : LoadEncoderResult :=
  load_encoder_go sensed gate_status_sel 0 (if retry then load_encoder_retries else 1) 0

/-! ## Transport errors (`ErcfError` raise sites) -/

/-- The typed transport errors relevant to the claims.  The source has a single
`ErcfError` exception class; constructors here name the raise sites. -/
inductive ErcfErr where
  /-- `_unload_bowden` 2098-2099: 80 percent slippage over the chunked unload. -/
  | stuckFilament
  /-- `_handle_runout` 2875: no EndlessSpool substitute, with the checked gates. -/
  | noSpoolAvailable (checked : List Nat)
deriving Repr, DecidableEq

/-! ## Bowden load (`_load_bowden`, ercf.py 1716-1747) -/

structure LoadBowdenResult where
  /-- Number of course chunk moves. -/
  moves : Nat
  /-- Commanded distance of each course chunk move. -/
  chunk_distance : ℚ
  /-- Commanded distance of each correction move, in order. -/
  correction_moves : List ℚ
  /-- Outstanding slip delta when the function returns. -/
  final_delta : ℚ
  /-- Whether the excess-slippage warning was logged. -/
  warn_excess : Bool
deriving Repr, DecidableEq

/-- The chunk count shared by `_load_bowden` 1723 and `_unload_bowden` 2088:
`moves = 1 if length < (reference / num_moves) else num_moves`. -/
def bowden_moves (length ref : ℚ) (num_moves : Nat) : Nat :=
  if length < ref / (num_moves : ℚ) then 1 else num_moves

/-- The slip delta accumulated over the course chunk moves. -/
def bowden_chunk_total (length ref : ℚ) (num_moves : Nat) (chunk_delta : Nat → ℚ) : ℚ :=
  (List.range (bowden_moves length ref num_moves)).foldl (fun a i => a + chunk_delta i) 0

/-- `_load_bowden` (ercf.py 1716-1747).  `chunk_delta i` is the slip delta
returned by course move number `i`; `corr_delta i d` is the delta returned by
correction move number `i` when it commands distance `d`.  The course loop runs
`bowden_moves` chunk moves of `length / moves` each and accumulates the deltas.
When the accumulated delta reaches `tolerance` outside calibration: with
`apply_bowden_correction` up to 2 correction moves are issued, each commanding
exactly the outstanding delta and stopping early once the delta drops below
tolerance; a delta still at or above tolerance afterwards (or with correction
disabled) only logs a warning.  The function returns normally in every case: it
contains no raise. -/
def load_bowden (length ref tolerance : ℚ) (num_moves : Nat)
    (apply_bowden_correction calibrating : Bool)
    (chunk_delta : Nat → ℚ) (corr_delta : Nat → ℚ → ℚ) : LoadBowdenResult :=
  let moves := bowden_moves length ref num_moves
  let chunk := length / (moves : ℚ)
  let delta := bowden_chunk_total length ref num_moves chunk_delta
  if tolerance ≤ delta ∧ calibrating = false then
    if apply_bowden_correction then
      let d1 := corr_delta 0 delta
      if tolerance ≤ d1 then
        let d2 := corr_delta 1 d1
        ⟨moves, chunk, [delta, d1], d2, decide (tolerance ≤ d2)⟩
      else ⟨moves, chunk, [delta], d1, false⟩
    else ⟨moves, chunk, [], delta, true⟩
  else ⟨moves, chunk, [], delta, false⟩

/-- Modelled from the claim wording (for comparison with `load_bowden`, which is
the embedding of the source): the same chunking and correction behaviour, but
when the outstanding slip is at least 80 percent of the commanded length the
load fails with the typed `stuckFilament` transport error. -/
def load_bowden_claimed (length ref tolerance : ℚ) (num_moves : Nat)
    (apply_bowden_correction calibrating : Bool)
    (chunk_delta : Nat → ℚ) (corr_delta : Nat → ℚ → ℚ) : Except ErcfErr LoadBowdenResult :=
  let r := load_bowden length ref tolerance num_moves apply_bowden_correction calibrating
    chunk_delta corr_delta
  if length * (8/10) ≤ r.final_delta ∧ calibrating = false then
    Except.error ErcfErr.stuckFilament
  else Except.ok r

/-! ## Bowden unload, chunked stage (`_unload_bowden`, ercf.py 2087-2103) -/

structure UnloadBowdenResult where
  moves : Nat
  /-- Commanded (negative) distance of each course chunk move. -/
  chunk_distance : ℚ
  /-- Accumulated slip delta over the chunk moves. -/
  total_delta : ℚ
  /-- Whether the excess-slippage warning was logged. -/
  warn_excess : Bool
  loaded_status : Int
deriving Repr, DecidableEq

/-- Chunked fast-unload stage of `_unload_bowden` (ercf.py 2087-2103), entered
with `length` the remaining commanded length.  `chunk_delta i` is the slip delta
of course move number `i`.  After the chunk loop: a delta of at least
`length * 0.8` outside calibration raises the stuck-filament error; otherwise a
delta at or above `tolerance` outside calibration logs a warning only, and the
loaded status becomes past-encoder. -/
def unload_bowden_chunks (length ref tolerance : ℚ) (num_moves : Nat)
    (calibrating : Bool) (chunk_delta : Nat → ℚ) : Except ErcfErr UnloadBowdenResult :=
  let moves := bowden_moves length ref num_moves
  let delta := bowden_chunk_total length ref num_moves chunk_delta
  if length * (8/10) ≤ delta ∧ calibrating = false then
    Except.error ErcfErr.stuckFilament
  else
    Except.ok ⟨moves, -(length / (moves : ℚ)), delta,
      decide (tolerance ≤ delta ∧ calibrating = false), LOADED_STATUS_PAST_ENCODER⟩

/-! ## Gate-ratio calibration (`calculcateCalibrationRatio`, ercf.py 1036-1061) -/

structure CalibrationRatioResult where
  test_length : ℚ
  ratio : ℚ
  persisted : Bool
deriving Repr, DecidableEq

/-- Ratio computation and persistence decision of `calculcateCalibrationRatio`
(ercf.py 1036-1054).  The encoder counter is reset to 0 before acquisition;
`encoder_moved` is the movement measured by `_load_encoder`, and `measurement`
is the total encoder distance after the load/unload round trip, so the round
trip itself was sensed as `measurement - encoder_moved`.  The ratio is saved
by `SAVE_VARIABLE` only for a non-reference tool and only when
`0.8 < ratio < 1.2`. -/
def calculcateCalibrationRatio (calibration_bowden_length encoder_moved measurement : ℚ)
    (tool : Nat) : CalibrationRatioResult :=
  let load_length := calibration_bowden_length - 100
  let test_length := load_length - encoder_moved
  let ratio := (test_length * 2) / (measurement - encoder_moved)
  { test_length := test_length
    ratio := ratio
    persisted := decide (¬ tool = 0) && (decide ((8 : ℚ)/10 < ratio) && decide (ratio < (12 : ℚ)/10)) }

/-! ## EndlessSpool ring scan (`_handle_runout`, ercf.py 2838-2892) -/

/-- Scan loop of `_handle_runout` (ercf.py 2863-2871).  `i` is the loop
iteration, `fuel` the remaining iterations (`num_gates - 1` at entry) and
`checked` accumulates `checked_gates`.  Each iteration examines
`check = (gate_selected + i + 1) % num_gates`; a gate of the group is appended
to `checked`, and the scan stops at the first such gate whose status is not
`GATE_EMPTY`. -/
def endless_spool_scan_go (num_gates gate_selected : Nat) (groups status : Nat → Int)
    (group : Int) : Nat → Nat → List Nat → Option Nat × List Nat
  | _, 0, checked => (none, checked)
  | i, fuel + 1, checked =>
    let check := (gate_selected + i + 1) % num_gates
    if groups check = group then
      if status check ≠ GATE_EMPTY then (some check, checked ++ [check])
      else endless_spool_scan_go num_gates gate_selected groups status group
        (i + 1) fuel (checked ++ [check])
    else endless_spool_scan_go num_gates gate_selected groups status group
      (i + 1) fuel checked

/-- `_set_gate_status(gate_selected, GATE_EMPTY)` at ercf.py 2862, as the update
of the gate-status table. -/
def mark_gate_empty (gate_selected : Nat) (status : Nat → Int) : Nat → Int :=
  fun g => if g = gate_selected then GATE_EMPTY else status g

/-- EndlessSpool resolution of `_handle_runout` (ercf.py 2858-2875): the group
of the selected gate is read, the selected gate is marked empty, and the scan
runs from the gate after the selected one; `next_gate == -1` raises the
no-spool error listing the checked gates. -/
def handle_runout_endless_spool (num_gates gate_selected : Nat)
    (groups status : Nat → Int) : Except ErcfErr Nat :=
  match endless_spool_scan_go num_gates gate_selected groups
      (mark_gate_empty gate_selected status) (groups gate_selected) 0
      (num_gates - 1) [] with
  | (some g, _) => Except.ok g
  | (none, checked) => Except.error (ErcfErr.noSpoolAvailable checked)

/-! ## Unload sequence checkpoints (`_unload_sequence`, ercf.py 1878-1962) -/

/-- The `loaded_status` checkpoints recorded by `_set_loaded_status` during
`_unload_sequence` (ercf.py 1878-1962) on a run where every motion succeeds,
in order.  `start` is `loaded_status` at entry; `tip_detected` is the result of
`_form_tip_standalone`; `bowden_moves_n` is the chunk count used by
`_unload_bowden` for the branch that reaches it.  The branch taken from at
least `LOADED_STATUS_HOMED_SENSOR` is the hard-coded block at 1911-1926: after
`_unload_extruder` (which records end-of-bowden) it issues four fixed-distance
moves with no status updates and then records `LOADED_STATUS_UNLOADED`
directly.  (The commented-out block at 1928-1934 would instead have gone
through `_unload_bowden` and `_unload_encoder`.) -/
def unload_sequence_statuses (start : Int) (skip_tip tip_detected : Bool)
    (bowden_moves_n : Nat) : List Int :=
  if start = LOADED_STATUS_UNLOADED then []
  else
    let tip_trace :=
      if ¬ skip_tip ∧ LOADED_STATUS_IN_EXTRUDER ≤ start then
        if tip_detected then [LOADED_STATUS_IN_EXTRUDER] else [LOADED_STATUS_IN_BOWDEN]
      else []
    let s1 :=
      if ¬ skip_tip ∧ LOADED_STATUS_IN_EXTRUDER ≤ start then
        if tip_detected then LOADED_STATUS_IN_EXTRUDER else LOADED_STATUS_IN_BOWDEN
      else start
    if LOADED_STATUS_HOMED_SENSOR ≤ s1 then
      tip_trace ++ [LOADED_STATUS_END_OF_BOWDEN, LOADED_STATUS_UNLOADED]
    else if LOADED_STATUS_HOMED_EXTRUDER ≤ s1 then
      tip_trace ++ List.replicate bowden_moves_n LOADED_STATUS_IN_BOWDEN ++
        [LOADED_STATUS_PAST_ENCODER, LOADED_STATUS_BEFORE_ENCODER,
          LOADED_STATUS_UNLOADED]
    else if LOADED_STATUS_BEFORE_ENCODER ≤ s1 then
      tip_trace ++ [LOADED_STATUS_BEFORE_ENCODER, LOADED_STATUS_UNLOADED]
    else []

/-! ## Selection and homing state (`_select_tool`, `_select_gate`, `_home`) -/

/-- The mutable fields of the `Ercf` object that the selection, homing and
pause-gating claims concern. -/
structure ErcfState where
  is_paused_locked : Bool
  tool_selected : Int
  gate_selected : Int
  servo_state : Int
  loaded_status : Int
  is_homed : Bool
deriving Repr, DecidableEq

/-- `servoUp` (ercf.py 894-910): a no-op when the servo is already up,
otherwise one servo actuation.  The count is the number of actuator commands
issued. -/
def servoUp (s : ErcfState) : ErcfState × Nat :=
  if s.servo_state = SERVO_UP_STATE then (s, 0)
  else ({ s with servo_state := SERVO_UP_STATE }, 1)

/-- `_select_gate` (ercf.py 2355-2367) on the success path of the selector
move: selecting the already-selected gate returns immediately; otherwise the
servo is raised and the selector moved to the calibrated offset of the gate,
which is then recorded.  The count is the number of actuator commands issued
(servo actuations plus the selector move). -/
def select_gate (s : ErcfState) (gate : Int) : ErcfState × Nat :=
  if gate = s.gate_selected then (s, 0)
  else
    let t := servoUp s
    ({ t.1 with gate_selected := gate }, t.2 + 1)

/-- `_set_tool_selected` (ercf.py 2373-2380): records the tool and sets the
gear step ratio; no actuator command. -/
def set_tool_selected (s : ErcfState) (tool : Int) : ErcfState :=
  { s with tool_selected := tool }

/-- `_select_tool` (ercf.py 2338-2353): an out-of-range tool is rejected with a
log line; re-selecting the current tool on its current gate with the servo in a
known (up or down) state returns immediately; otherwise the gate is selected
and the tool recorded.  (The trailing `servoUp` of upstream is commented out at
2351-2352.)  Returns the new state and the number of actuator commands. -/
def select_tool (num_tools : Nat) (tool_to_gate_map : Nat → Int) (s : ErcfState)
    (tool : Int) : ErcfState × Nat :=
  if tool < 0 ∨ (num_tools : Int) ≤ tool then (s, 0)
  else
    let gate := tool_to_gate_map tool.toNat
    if tool = s.tool_selected ∧ gate = s.gate_selected ∧
        (s.servo_state = SERVO_UP_STATE ∨ s.servo_state = SERVO_DOWN_STATE) then
      (s, 0)
    else
      let t := select_gate s gate
      (set_tool_selected t.1 tool, t.2)

/-- `_check_is_paused` (ercf.py 1345-1349). -/
def check_is_paused (s : ErcfState) : Bool := s.is_paused_locked

/-- `_check_is_loaded` (ercf.py 1357-1361). -/
def check_is_loaded (s : ErcfState) : Bool :=
  decide (¬ (s.loaded_status = LOADED_STATUS_UNLOADED ∨
    s.loaded_status = LOADED_STATUS_UNKNOWN))

/-- `_unlock` (ercf.py 1278-1287) restricted to the modelled fields: clears the
pause lock. -/
def unlock (s : ErcfState) : ErcfState :=
  if s.is_paused_locked = false then s else { s with is_paused_locked := false }

/-- `_unselect_tool` (ercf.py 2334-2336): servo up, tool forgotten. -/
def unselect_tool (s : ErcfState) : ErcfState :=
  set_tool_selected (servoUp s).1 TOOL_UNKNOWN

/-- `_home_selector` (ercf.py 2201-2231) on the success path: the gate is
forgotten, the servo raised, the homing moves issued and `is_homed` set. -/
def home_selector (s : ErcfState) : ErcfState :=
  let s1 := { s with is_homed := false, gate_selected := TOOL_UNKNOWN }
  { (servoUp s1).1 with is_homed := true }

/-- `_home` (ercf.py 2177-2199) on the success path.  A held pause lock is
UNLOCKED (ercf.py 2181-2183), not rejected, and homing proceeds: a forced
(`force_unload = 1`) or automatic (filament present) unload runs
`_unload_sequence`, summarized by its terminal state (filament unloaded, servo
up, ercf.py 1890-1956); then the tool is unselected, the selector homed, and
for `tool >= 0` the tool selected. -/
def home (num_tools : Nat) (tool_to_gate_map : Nat → Int) (s : ErcfState)
    (tool force_unload : Int) : ErcfState :=
  let s1 := if s.is_paused_locked then unlock s else s
  let s2 :=
    if force_unload = 1 then
      { s1 with loaded_status := LOADED_STATUS_UNLOADED,
                servo_state := SERVO_UP_STATE }
    else if force_unload = -1 ∧ s1.loaded_status ≠ LOADED_STATUS_UNLOADED then
      { s1 with loaded_status := LOADED_STATUS_UNLOADED,
                servo_state := SERVO_UP_STATE }
    else s1
  let s3 := home_selector (unselect_tool s2)
  if 0 ≤ tool then (select_tool num_tools tool_to_gate_map s3 tool).1 else s3

/-- `cmd_ERCF_HOME` (ercf.py 2408-2415): checks only the disabled flag, NOT the
pause lock, then calls `_home`. -/
def cmd_ERCF_HOME (num_tools : Nat) (tool_to_gate_map : Nat → Int)
    (is_enabled : Bool) (s : ErcfState) (tool force_unload : Int) : ErcfState :=
  if is_enabled = false then s
  else home num_tools tool_to_gate_map s tool force_unload

/-- `cmd_ERCF_SELECT` (ercf.py 2418-2446) with a TOOL argument: guarded by the
disabled, paused, not-homed and loaded checks, then `_select_tool`. -/
def cmd_ERCF_SELECT_tool (num_tools : Nat) (tool_to_gate_map : Nat → Int)
    (is_enabled : Bool) (s : ErcfState) (tool : Int) : ErcfState × Nat :=
  if is_enabled = false then (s, 0)
  else if check_is_paused s then (s, 0)
  else if s.is_homed = false then (s, 0)
  else if check_is_loaded s then (s, 0)
  else select_tool num_tools tool_to_gate_map s tool

end ERCF

/-! ## Theorems -/

namespace ERCF

/-- C1: for every call to the slip-tracing move primitive with commanded distance
`d`, in any motor mode, the returned delta equals the absolute value of `d` minus
the absolute value of the encoder displacement sensed between the sample taken
before the move and the sample taken after it (the encoder counter is cumulative,
so the reading after the move is at least the reading before it); positive delta
means less movement was sensed than commanded and negative delta means more. -/
theorem trace_move_delta_spec (motor : Motor) (d s e : ℚ) (h : s ≤ e) :
    trace_filament_move_delta motor d s e = |d| - |e - s| ∧
    (0 < trace_filament_move_delta motor d s e ↔ e - s < |d|) ∧
    (trace_filament_move_delta motor d s e < 0 ↔ |d| < e - s) := by
  have habs : |e - s| = e - s := abs_of_nonneg (by linarith)
  refine ⟨?_, ?_, ?_⟩
  · cases motor <;> simp [trace_filament_move_delta, habs]
  · cases motor <;> simp [trace_filament_move_delta]
  · cases motor <;> simp [trace_filament_move_delta]

/-- Witness for C1: a gear-mode retraction of 10mm with encoder going from 3 to 11. -/
theorem trace_move_delta_spec_witness :
    (3 : ℚ) ≤ 11 ∧
    (trace_filament_move_delta Motor.gear (-10) 3 11 = |(-10 : ℚ)| - |(11 : ℚ) - 3| ∧
      (0 < trace_filament_move_delta Motor.gear (-10) 3 11 ↔ (11 : ℚ) - 3 < |(-10 : ℚ)|) ∧
      (trace_filament_move_delta Motor.gear (-10) 3 11 < 0 ↔ |(-10 : ℚ)| < (11 : ℚ) - 3)) :=
  ⟨by norm_num, trace_move_delta_spec Motor.gear (-10) 3 11 (by norm_num)⟩

/-- The success test of one probe attempt reduces to the sensed movement
exceeding 6mm. -/
theorem load_encoder_test (m : ℚ) :
    (LONG_MOVE_THRESHOLD - (|LONG_MOVE_THRESHOLD| - m) > 6) ↔ m > 6 := by
  have h : |LONG_MOVE_THRESHOLD| = LONG_MOVE_THRESHOLD :=
    abs_of_nonneg (by norm_num [LONG_MOVE_THRESHOLD])
  rw [h]
  constructor <;> intro h2 <;> linarith

theorem load_encoder_go_fail (sensed : Nat → ℚ) (g : Int) :
    ∀ (k i : Nat) (acc : ℚ), (∀ j, i ≤ j → j < i + k → ¬ sensed j > 6) →
      load_encoder_go sensed g i k acc =
        ⟨none, GATE_UNKNOWN, LOADED_STATUS_UNLOADED, i + k⟩ := by
  intro k
  induction k with
  | zero => intro i acc _; simp [load_encoder_go]
  | succ n ih =>
    intro i acc hfail
    rw [load_encoder_go]
    simp only [load_encoder_test]
    rw [if_neg (hfail i (le_refl i) (by omega))]
    rw [ih (i + 1) (acc + sensed i) (fun j hj1 hj2 => hfail j (by omega) (by omega))]
    have h3 : i + 1 + n = i + (n + 1) := by omega
    rw [h3]

theorem load_encoder_go_isSome (sensed : Nat → ℚ) (g : Int) :
    ∀ (k i : Nat) (acc : ℚ),
      ((load_encoder_go sensed g i k acc).measured.isSome = true ↔
        ∃ j, i ≤ j ∧ j < i + k ∧ sensed j > 6) := by
  intro k
  induction k with
  | zero =>
    intro i acc
    simp [load_encoder_go]
    intro j h1 h2
    omega
  | succ n ih =>
    intro i acc
    rw [load_encoder_go]
    simp only [load_encoder_test]
    by_cases hc : sensed i > 6
    · rw [if_pos hc]
      simp only [Option.isSome_some, true_iff]
      exact ⟨i, le_refl i, by omega, hc⟩
    · rw [if_neg hc]
      rw [ih (i + 1) (acc + sensed i)]
      constructor
      · rintro ⟨j, h1, h2, h3⟩
        exact ⟨j, by omega, by omega, h3⟩
      · rintro ⟨j, h1, h2, h3⟩
        refine ⟨j, ?_, by omega, h3⟩
        rcases Nat.eq_or_lt_of_le h1 with h | h
        · exact absurd (h ▸ h3) hc
        · omega

theorem load_encoder_go_attempts (sensed : Nat → ℚ) (g : Int) :
    ∀ (k i : Nat) (acc : ℚ), (load_encoder_go sensed g i k acc).attempts ≤ i + k := by
  intro k
  induction k with
  | zero => intro i acc; simp [load_encoder_go]
  | succ n ih =>
    intro i acc
    rw [load_encoder_go]
    split
    · simp
    · calc (load_encoder_go sensed g (i + 1) n (acc + sensed i)).attempts
          ≤ (i + 1) + n := ih (i + 1) (acc + sensed i)
        _ ≤ i + (n + 1) := by omega

/-- C3 counterexample: the claim states a probe attempt succeeds only when the
sensed movement is at least `LONG_MOVE_THRESHOLD - 6 = 79` mm.  In the code the
test `(LONG_MOVE_THRESHOLD - delta) > 6.0` reduces to sensed movement > 6mm, so
a probe that senses only 10mm succeeds on the first attempt, even though
10 < 79. -/
theorem load_encoder_floor_counterexample :
    load_encoder true 2 (fun _ => 10) GATE_EMPTY =
      ⟨some 10, GATE_AVAILABLE, LOADED_STATUS_PAST_ENCODER, 1⟩ ∧
    ¬ (LONG_MOVE_THRESHOLD - 6 ≤ (10 : ℚ)) := by
  constructor
  · show load_encoder_go _ _ 0 2 0 = _
    rw [load_encoder_go]
    norm_num [LONG_MOVE_THRESHOLD, GATE_EMPTY, GATE_AVAILABLE,
      LOADED_STATUS_PAST_ENCODER]
  · norm_num [LONG_MOVE_THRESHOLD]

/-- C3 amended: `_load_encoder` issues a fixed 85mm probe move up to the
configured number of retries (default 2); a probe attempt succeeds exactly when
the sensed movement exceeds 6mm (not when it reaches the long-move threshold
minus 6mm); when every retry fails, the selected gate is marked Unknown, the
transport state is set back to Unloaded, and the pickup error is raised. -/
theorem load_encoder_amended (retries : Nat) (sensed : Nat → ℚ) (g : Int) :
    ((load_encoder true retries sensed g).measured.isSome = true ↔
      ∃ j, j < retries ∧ sensed j > 6) ∧
    ((∀ j, j < retries → ¬ sensed j > 6) →
      load_encoder true retries sensed g =
        ⟨none, GATE_UNKNOWN, LOADED_STATUS_UNLOADED, retries⟩) ∧
    (load_encoder true retries sensed g).attempts ≤ retries := by
  refine ⟨?_, ?_, ?_⟩
  · rw [load_encoder, if_pos rfl, load_encoder_go_isSome]
    constructor
    · rintro ⟨j, _, h2, h3⟩; exact ⟨j, by omega, h3⟩
    · rintro ⟨j, h1, h2⟩; exact ⟨j, by omega, by omega, h2⟩
  · intro hfail
    rw [load_encoder, if_pos rfl,
      load_encoder_go_fail sensed g retries 0 0 (fun j _ hj => hfail j (by omega))]
    simp
  · rw [load_encoder, if_pos rfl]
    have := load_encoder_go_attempts sensed g retries 0 0
    omega

/-- Witness for C3 amended: two probes each sensing 5mm exhaust the retries and
raise the pickup error with the gate Unknown and the state Unloaded. -/
theorem load_encoder_amended_witness :
    load_encoder true 2 (fun _ => (5 : ℚ)) GATE_EMPTY =
      ⟨none, GATE_UNKNOWN, LOADED_STATUS_UNLOADED, 2⟩ :=
  (load_encoder_amended 2 (fun _ => (5 : ℚ)) GATE_EMPTY).2.1
    (by intro j hj; norm_num)

/-- C2 counterexample: the claim states that a bowden load whose accumulated
slip is at least 80 percent of the commanded length fails with the
stuck-filament transport error.  With commanded length 400, deltas of 90 per
chunk (360 total, 90 percent) and two correction moves that recover nothing,
`_load_bowden` still returns normally with only a warning, while the behaviour
the claim describes (`load_bowden_claimed`) would have raised. -/
theorem load_bowden_counterexample :
    load_bowden 400 400 10 4 true false (fun _ => 90) (fun _ d => d) =
      ⟨4, 100, [360, 360], 360, true⟩ ∧
    (8 : ℚ)/10 * 400 ≤ 360 ∧
    load_bowden_claimed 400 400 10 4 true false (fun _ => 90) (fun _ d => d) =
      Except.error ErcfErr.stuckFilament := by
  have hm : bowden_moves 400 400 4 = 4 := by
    rw [bowden_moves]; norm_num
  have hrange : List.range 4 = [0, 1, 2, 3] := by decide
  have hct : bowden_chunk_total 400 400 4 (fun _ => 90) = 360 := by
    rw [bowden_chunk_total, hm, hrange]; norm_num [List.foldl]
  refine ⟨?_, by norm_num, ?_⟩
  · simp only [load_bowden, hm, hct]
    norm_num [LoadBowdenResult.mk.injEq]
  · simp only [load_bowden_claimed, load_bowden, hm, hct]
    norm_num

/-- C2 amended: `_load_bowden` splits the length into `num_moves` equal chunks
(one chunk when the length is below `ref / num_moves`) and accumulates the slip
delta; when the accumulated delta reaches the load tolerance outside
calibration and `apply_bowden_correction` is enabled it applies at most 2
corrective re-moves, each commanding exactly the outstanding delta; if the
delta is still at or above tolerance it logs a warning and continues
(non-fatal) in every case: the load never fails inside `_load_bowden`, and in
particular there is no 80-percent stuck-filament check on load. -/
theorem load_bowden_amended (length ref tolerance : ℚ) (num_moves : Nat)
    (apply_bowden_correction calibrating : Bool)
    (chunk_delta : Nat → ℚ) (corr_delta : Nat → ℚ → ℚ) :
    (load_bowden length ref tolerance num_moves apply_bowden_correction
        calibrating chunk_delta corr_delta).moves = bowden_moves length ref num_moves ∧
    (load_bowden length ref tolerance num_moves apply_bowden_correction
        calibrating chunk_delta corr_delta).chunk_distance =
      length / ((bowden_moves length ref num_moves : ℕ) : ℚ) ∧
    (load_bowden length ref tolerance num_moves apply_bowden_correction
        calibrating chunk_delta corr_delta).correction_moves.length ≤ 2 ∧
    ((¬ tolerance ≤ bowden_chunk_total length ref num_moves chunk_delta ∨
        calibrating = true ∨ apply_bowden_correction = false) →
      (load_bowden length ref tolerance num_moves apply_bowden_correction
        calibrating chunk_delta corr_delta).correction_moves = []) ∧
    (tolerance ≤ bowden_chunk_total length ref num_moves chunk_delta →
      calibrating = false → apply_bowden_correction = true →
      (load_bowden length ref tolerance num_moves apply_bowden_correction
          calibrating chunk_delta corr_delta).correction_moves =
          [bowden_chunk_total length ref num_moves chunk_delta] ∧
        ¬ tolerance ≤ corr_delta 0 (bowden_chunk_total length ref num_moves chunk_delta) ∨
      (load_bowden length ref tolerance num_moves apply_bowden_correction
          calibrating chunk_delta corr_delta).correction_moves =
          [bowden_chunk_total length ref num_moves chunk_delta,
            corr_delta 0 (bowden_chunk_total length ref num_moves chunk_delta)] ∧
        tolerance ≤ corr_delta 0 (bowden_chunk_total length ref num_moves chunk_delta)) ∧
    ((load_bowden length ref tolerance num_moves apply_bowden_correction
        calibrating chunk_delta corr_delta).warn_excess = true ↔
      calibrating = false ∧ tolerance ≤
        (load_bowden length ref tolerance num_moves apply_bowden_correction
          calibrating chunk_delta corr_delta).final_delta) := by
  simp only [load_bowden]
  split_ifs with h1 h2 h3
  · refine ⟨rfl, rfl, by simp, ?_, ?_, ?_⟩
    · rintro (h | h | h)
      · exact absurd h1.1 h
      · rw [h1.2] at h; exact absurd h (by simp)
      · rw [h2] at h; exact absurd h (by simp)
    · intro _ _ _
      exact Or.inr ⟨rfl, h3⟩
    · simp [h1.2]
  · refine ⟨rfl, rfl, by simp, ?_, ?_, ?_⟩
    · rintro (h | h | h)
      · exact absurd h1.1 h
      · rw [h1.2] at h; exact absurd h (by simp)
      · rw [h2] at h; exact absurd h (by simp)
    · intro _ _ _
      exact Or.inl ⟨rfl, h3⟩
    · simp only [Bool.false_eq_true, false_iff, not_and]
      intro _
      exact h3
  · refine ⟨rfl, rfl, by simp, fun _ => rfl, ?_, ?_⟩
    · intro _ _ h
      exact absurd h h2
    · simp [h1.1, h1.2]
  · refine ⟨rfl, rfl, by simp, fun _ => rfl, ?_, ?_⟩
    · intro ha hb _
      exact absurd ⟨ha, hb⟩ h1
    · simp only [Bool.false_eq_true, false_iff, not_and]
      intro hc ht
      exact h1 ⟨ht, hc⟩

/-- Witness for C2 amended: at the counterexample input the chunking, the two
correction moves of exactly the outstanding delta and the warning are as the
amended claim states. -/
theorem load_bowden_amended_witness :
    (load_bowden 400 400 10 4 true false (fun _ => 90) (fun _ d => d)).correction_moves.length ≤ 2 ∧
    ((load_bowden 400 400 10 4 true false (fun _ => 90) (fun _ d => d)).warn_excess = true ↔
      false = false ∧ (10 : ℚ) ≤
        (load_bowden 400 400 10 4 true false (fun _ => 90) (fun _ d => d)).final_delta) :=
  ⟨(load_bowden_amended 400 400 10 4 true false (fun _ => 90) (fun _ d => d)).2.2.1,
   (load_bowden_amended 400 400 10 4 true false (fun _ => 90) (fun _ d => d)).2.2.2.2.2⟩

/-- C4: for a chunked bowden unload outside calibration, an accumulated slip
delta of at least 80 percent of the commanded length raises the stuck-filament
transport error; a delta of 79 percent of the commanded length does not raise;
and a delta at or above the unload tolerance but below 80 percent produces only
a warning, returning the same past-encoder result as the quiet path. -/
theorem unload_bowden_slip_boundary (length ref tolerance : ℚ) (num_moves : Nat)
    (chunk_delta : Nat → ℚ) (hlen : 0 < length) :
    (length * (8/10) ≤ bowden_chunk_total length ref num_moves chunk_delta →
      unload_bowden_chunks length ref tolerance num_moves false chunk_delta =
        Except.error ErcfErr.stuckFilament) ∧
    (bowden_chunk_total length ref num_moves chunk_delta = length * (79/100) →
      ∀ e, unload_bowden_chunks length ref tolerance num_moves false chunk_delta ≠
        Except.error e) ∧
    (tolerance ≤ bowden_chunk_total length ref num_moves chunk_delta →
      bowden_chunk_total length ref num_moves chunk_delta < length * (8/10) →
      unload_bowden_chunks length ref tolerance num_moves false chunk_delta =
        Except.ok ⟨bowden_moves length ref num_moves,
          -(length / ((bowden_moves length ref num_moves : ℕ) : ℚ)),
          bowden_chunk_total length ref num_moves chunk_delta, true,
          LOADED_STATUS_PAST_ENCODER⟩) := by
  refine ⟨?_, ?_, ?_⟩
  · intro h
    simp only [unload_bowden_chunks]
    split_ifs with hc
    · rfl
    · exact absurd ⟨h, trivial⟩ hc
  · intro h e
    simp only [unload_bowden_chunks]
    split_ifs with hc
    · exfalso
      rcases hc with ⟨h8, -⟩
      rw [h] at h8
      nlinarith
    · simp
  · intro ht h8
    simp only [unload_bowden_chunks]
    split_ifs with hc
    · exfalso
      rcases hc with ⟨h0, -⟩
      linarith
    · simp [ht]

/-- Witness for C4: commanded length 100 over 4 chunks; deltas of 20 per chunk
(80 total) raise the stuck-filament error, deltas of 79/4 per chunk (79 total)
do not and only warn against a tolerance of 10. -/
theorem unload_bowden_slip_boundary_witness :
    unload_bowden_chunks 100 400 10 4 false (fun _ => 20) =
      Except.error ErcfErr.stuckFilament ∧
    unload_bowden_chunks 100 400 10 4 false (fun _ => 79/4) =
      Except.ok ⟨4, -(100/4), 79, true, LOADED_STATUS_PAST_ENCODER⟩ := by
  have hrange : List.range 4 = [0, 1, 2, 3] := by decide
  have hm : bowden_moves (100 : ℚ) 400 4 = 4 := by
    rw [bowden_moves]; norm_num
  have hd20 : bowden_chunk_total 100 400 4 (fun _ => 20) = 80 := by
    rw [bowden_chunk_total, hm, hrange]; norm_num [List.foldl]
  have hd79 : bowden_chunk_total 100 400 4 (fun _ => 79/4) = 79 := by
    rw [bowden_chunk_total, hm, hrange]; norm_num [List.foldl]
  constructor
  · exact (unload_bowden_slip_boundary 100 400 10 4 (fun _ => 20) (by norm_num)).1
      (by rw [hd20]; norm_num)
  · have h := (unload_bowden_slip_boundary 100 400 10 4 (fun _ => 79/4) (by norm_num)).2.2
      (by rw [hd79]; norm_num) (by rw [hd79]; norm_num)
    rw [h, hd79, hm]
    norm_num

/-- C7: gate-ratio calibration computes `ratio = (2 x test_length) / sensed` where
`sensed = measurement - encoder_moved` is the encoder measurement of the round
trip; for a non-reference tool the ratio is persisted exactly when it lies
strictly between 0.8 and 1.2; concretely a ratio of 1.05 is persisted and a
ratio of 1.25 is not. -/
theorem calibration_ratio_spec (cal em meas : ℚ) (tool : Nat) (htool : tool ≠ 0) :
    (calculcateCalibrationRatio cal em meas tool).ratio =
      ((calculcateCalibrationRatio cal em meas tool).test_length * 2) / (meas - em) ∧
    ((calculcateCalibrationRatio cal em meas tool).persisted = true ↔
      (8 : ℚ)/10 < (calculcateCalibrationRatio cal em meas tool).ratio ∧
      (calculcateCalibrationRatio cal em meas tool).ratio < (12 : ℚ)/10) ∧
    (calculcateCalibrationRatio 600 0 (20000/21) 1).ratio = 21/20 ∧
    (calculcateCalibrationRatio 600 0 (20000/21) 1).persisted = true ∧
    (calculcateCalibrationRatio 600 0 800 1).ratio = 5/4 ∧
    (calculcateCalibrationRatio 600 0 800 1).persisted = false := by
  refine ⟨rfl, ?_, by norm_num [calculcateCalibrationRatio], ?_, by norm_num [calculcateCalibrationRatio], ?_⟩
  · simp [calculcateCalibrationRatio, htool]
  · simp [calculcateCalibrationRatio]
    norm_num
  · simp [calculcateCalibrationRatio]
    norm_num

/-- C5: evaluation of the unload checkpoint trace at the failing input of the
claim.  From the fully loaded state (other motion succeeding and the tip
detected), the active code of `_unload_sequence` records in-extruder, then
end-of-bowden, then jumps directly to Unloaded through the hard-coded
fixed-distance moves of ercf.py 1911-1926, skipping the in-bowden,
past-encoder and before-encoder checkpoints that the reverse-of-load order
requires (and that the commented-out general path at 1928-1934 would have
recorded). -/
theorem unload_sequence_skips_checkpoints :
    unload_sequence_statuses LOADED_STATUS_FULL false true 1 =
      [LOADED_STATUS_IN_EXTRUDER, LOADED_STATUS_END_OF_BOWDEN,
        LOADED_STATUS_UNLOADED] ∧
    LOADED_STATUS_IN_BOWDEN ∉ unload_sequence_statuses LOADED_STATUS_FULL false true 1 ∧
    LOADED_STATUS_PAST_ENCODER ∉ unload_sequence_statuses LOADED_STATUS_FULL false true 1 ∧
    LOADED_STATUS_BEFORE_ENCODER ∉
      unload_sequence_statuses LOADED_STATUS_FULL false true 1 := by
  decide

/-- Every gate returned by the scan loop is a group gate with non-empty status
reached in ring order, and every group gate strictly before it in ring order
has empty status. -/
theorem endless_spool_scan_go_eq_some (n gs : Nat) (groups status : Nat → Int)
    (group : Int) :
    ∀ (fuel i : Nat) (checked : List Nat) (g : Nat),
      (endless_spool_scan_go n gs groups status group i fuel checked).1 = some g →
      ∃ t, i ≤ t ∧ t < i + fuel ∧ g = (gs + t + 1) % n ∧
        groups g = group ∧ status g ≠ GATE_EMPTY ∧
        ∀ u, i ≤ u → u < t → groups ((gs + u + 1) % n) = group →
          status ((gs + u + 1) % n) = GATE_EMPTY := by
  intro fuel
  induction fuel with
  | zero =>
    intro i checked g h
    simp [endless_spool_scan_go] at h
  | succ m ih =>
    intro i checked g h
    simp only [endless_spool_scan_go] at h
    by_cases h1 : groups ((gs + i + 1) % n) = group
    · rw [if_pos h1] at h
      by_cases h2 : status ((gs + i + 1) % n) ≠ GATE_EMPTY
      · rw [if_pos h2] at h
        simp only [Option.some.injEq] at h
        refine ⟨i, le_refl i, by omega, h.symm, ?_, ?_, ?_⟩
        · rw [← h]; exact h1
        · rw [← h]; exact h2
        · intro u hu1 hu2 _
          omega
      · rw [if_neg h2] at h
        obtain ⟨t, ht1, ht2, ht3, ht4, ht5, ht6⟩ := ih (i + 1) _ g h
        refine ⟨t, by omega, by omega, ht3, ht4, ht5, ?_⟩
        intro u hu1 hu2 hgu
        rcases Nat.eq_or_lt_of_le hu1 with he | hlt
        · subst he
          exact not_not.mp h2
        · exact ht6 u hlt hu2 hgu
    · rw [if_neg h1] at h
      obtain ⟨t, ht1, ht2, ht3, ht4, ht5, ht6⟩ := ih (i + 1) _ g h
      refine ⟨t, by omega, by omega, ht3, ht4, ht5, ?_⟩
      intro u hu1 hu2 hgu
      rcases Nat.eq_or_lt_of_le hu1 with he | hlt
      · exact absurd (he ▸ hgu) h1
      · exact ht6 u hlt hu2 hgu

/-- With every group gate in the window empty, the scan exhausts its fuel and
returns `none` with the checked list extended by the group gates of the window
in ring order. -/
theorem endless_spool_scan_go_eq_none (n gs : Nat) (groups status : Nat → Int)
    (group : Int) :
    ∀ (fuel i : Nat) (checked : List Nat),
      (∀ t, i ≤ t → t < i + fuel → groups ((gs + t + 1) % n) = group →
        status ((gs + t + 1) % n) = GATE_EMPTY) →
      endless_spool_scan_go n gs groups status group i fuel checked =
        (none, checked ++ ((List.range' i fuel).filter
          (fun t => decide (groups ((gs + t + 1) % n) = group))).map
          (fun t => (gs + t + 1) % n)) := by
  intro fuel
  induction fuel with
  | zero =>
    intro i checked _
    simp [endless_spool_scan_go]
  | succ m ih =>
    intro i checked hall
    simp only [endless_spool_scan_go]
    rw [List.range'_succ]
    by_cases h1 : groups ((gs + i + 1) % n) = group
    · rw [if_pos h1]
      have hempty : status ((gs + i + 1) % n) = GATE_EMPTY :=
        hall i (le_refl i) (by omega) h1
      rw [if_neg (by simpa using hempty)]
      rw [ih (i + 1) (checked ++ [(gs + i + 1) % n])
        (fun t ht1 ht2 hg => hall t (by omega) (by omega) hg)]
      simp [h1]
    · rw [if_neg h1]
      rw [ih (i + 1) checked (fun t ht1 ht2 hg => hall t (by omega) (by omega) hg)]
      simp [h1]

/-- C6: on a true runout with EndlessSpool, `_handle_runout` marks the selected
gate empty and scans its substitution group in gate-index ring order starting
at the gate after the failed one.  When every gate status is Empty or
Available: a returned gate is an available gate of the group, distinct from the
failed gate, and every group gate strictly earlier in ring order is empty
(after the marking).  With statuses [Empty, Available, Empty, Available] all in
group 0 and a runout on gate 0, gate 1 is selected, so gate 3 is never chosen
before gate 1.  When no gate of the group is available, the call fails with
the no-spool error listing the checked gates in ring order. -/
theorem endless_spool_ring_search (num_gates gate_selected : Nat)
    (groups status : Nat → Int)
    (hstat : ∀ i, status i = GATE_EMPTY ∨ status i = GATE_AVAILABLE) :
    (∀ g, handle_runout_endless_spool num_gates gate_selected groups status =
        Except.ok g →
      ∃ t, t < num_gates - 1 ∧ g = (gate_selected + t + 1) % num_gates ∧
        groups g = groups gate_selected ∧ g ≠ gate_selected ∧
        status g = GATE_AVAILABLE ∧
        ∀ u, u < t →
          groups ((gate_selected + u + 1) % num_gates) = groups gate_selected →
          mark_gate_empty gate_selected status ((gate_selected + u + 1) % num_gates) =
            GATE_EMPTY) ∧
    handle_runout_endless_spool 4 0 (fun _ => 0)
        (fun g => if g = 1 ∨ g = 3 then GATE_AVAILABLE else GATE_EMPTY) =
      Except.ok 1 ∧
    ((∀ t, t < num_gates - 1 →
        groups ((gate_selected + t + 1) % num_gates) = groups gate_selected →
        mark_gate_empty gate_selected status ((gate_selected + t + 1) % num_gates) =
          GATE_EMPTY) →
      handle_runout_endless_spool num_gates gate_selected groups status =
        Except.error (ErcfErr.noSpoolAvailable
          (((List.range (num_gates - 1)).filter
            (fun t => decide (groups ((gate_selected + t + 1) % num_gates) =
              groups gate_selected))).map
            (fun t => (gate_selected + t + 1) % num_gates)))) := by
  refine ⟨?_, by rfl, ?_⟩
  · intro g h
    rw [handle_runout_endless_spool] at h
    rcases hE : endless_spool_scan_go num_gates gate_selected groups
        (mark_gate_empty gate_selected status) (groups gate_selected) 0
        (num_gates - 1) [] with ⟨og, ch⟩
    rw [hE] at h
    cases og with
    | none => simp at h
    | some g2 =>
      simp only [Except.ok.injEq] at h
      have h1 : (endless_spool_scan_go num_gates gate_selected groups
          (mark_gate_empty gate_selected status) (groups gate_selected) 0
          (num_gates - 1) []).1 = some g2 := by rw [hE]
      obtain ⟨t, ht0, ht1, ht2, ht3, ht4, ht5⟩ :=
        endless_spool_scan_go_eq_some num_gates gate_selected groups
          (mark_gate_empty gate_selected status) (groups gate_selected)
          (num_gates - 1) 0 [] g2 h1
      subst h
      have hne : g2 ≠ gate_selected := by
        intro he
        apply ht4
        rw [he, mark_gate_empty, if_pos rfl]
      refine ⟨t, by omega, ht2, ht3, hne, ?_, fun u hu hgu => ht5 u (by omega) hu hgu⟩
      have hmk : mark_gate_empty gate_selected status g2 = status g2 := by
        rw [mark_gate_empty, if_neg hne]
      rw [hmk] at ht4
      rcases hstat g2 with he | ha
      · exact absurd he ht4
      · exact ha
  · intro hall
    rw [handle_runout_endless_spool]
    rw [endless_spool_scan_go_eq_none num_gates gate_selected groups
      (mark_gate_empty gate_selected status) (groups gate_selected)
      (num_gates - 1) 0 [] (fun t ht0 ht1 hg => hall t (by omega) hg)]
    simp [List.range_eq_range']

/-- Witness for C6: the concrete ring search of the claim, obtained from the
theorem at 4 gates in one group with statuses [Empty, Available, Empty,
Available] and a runout on gate 0. -/
theorem endless_spool_ring_search_witness :
    handle_runout_endless_spool 4 0 (fun _ => 0)
        (fun g => if g = 1 ∨ g = 3 then GATE_AVAILABLE else GATE_EMPTY) =
      Except.ok 1 :=
  (endless_spool_ring_search 4 0 (fun _ => 0)
    (fun g => if g = 1 ∨ g = 3 then GATE_AVAILABLE else GATE_EMPTY)
    (by
      intro i
      by_cases h : i = 1 ∨ i = 3 <;> simp [h])).2.1

/-- C10: in the EndlessSpool ring scan a gate with Unknown (never checked)
status is an acceptable substitute: any selected gate merely has non-Empty
status after the marking, and concretely with statuses [Empty, Unknown,
Available, Empty] all in group 0 and a runout on gate 0, the Unknown gate 1 is
selected ahead of the Available gate 2. -/
theorem endless_spool_unknown_acceptable (num_gates gate_selected : Nat)
    (groups status : Nat → Int) :
    (∀ g, handle_runout_endless_spool num_gates gate_selected groups status =
        Except.ok g →
      mark_gate_empty gate_selected status g ≠ GATE_EMPTY ∧
        groups g = groups gate_selected) ∧
    handle_runout_endless_spool 4 0 (fun _ => 0)
        (fun g => if g = 1 then GATE_UNKNOWN
          else if g = 2 then GATE_AVAILABLE else GATE_EMPTY) =
      Except.ok 1 ∧
    (fun g : Nat => if g = 1 then GATE_UNKNOWN
      else if g = 2 then GATE_AVAILABLE else GATE_EMPTY) 1 = GATE_UNKNOWN := by
  refine ⟨?_, by rfl, by rfl⟩
  intro g h
  rw [handle_runout_endless_spool] at h
  rcases hE : endless_spool_scan_go num_gates gate_selected groups
      (mark_gate_empty gate_selected status) (groups gate_selected) 0
      (num_gates - 1) [] with ⟨og, ch⟩
  rw [hE] at h
  cases og with
  | none => simp at h
  | some g2 =>
    simp only [Except.ok.injEq] at h
    have h1 : (endless_spool_scan_go num_gates gate_selected groups
        (mark_gate_empty gate_selected status) (groups gate_selected) 0
        (num_gates - 1) []).1 = some g2 := by rw [hE]
    obtain ⟨t, ht0, ht1, ht2, ht3, ht4, ht5⟩ :=
      endless_spool_scan_go_eq_some num_gates gate_selected groups
        (mark_gate_empty gate_selected status) (groups gate_selected)
        (num_gates - 1) 0 [] g2 h1
    subst h
    exact ⟨ht4, ht3⟩

/-- Witness for C10: the acceptance criterion applied to the concrete scan in
which the Unknown gate 1 is selected. -/
theorem endless_spool_unknown_acceptable_witness :
    mark_gate_empty 0 (fun g => if g = 1 then GATE_UNKNOWN
        else if g = 2 then GATE_AVAILABLE else GATE_EMPTY) 1 ≠ GATE_EMPTY ∧
      (fun _ : Nat => (0 : Int)) 1 = (fun _ : Nat => (0 : Int)) 0 :=
  (endless_spool_unknown_acceptable 4 0 (fun _ => 0)
      (fun g => if g = 1 then GATE_UNKNOWN
        else if g = 2 then GATE_AVAILABLE else GATE_EMPTY)).1 1
    (endless_spool_unknown_acceptable 4 0 (fun _ => 0)
      (fun g => if g = 1 then GATE_UNKNOWN
        else if g = 2 then GATE_AVAILABLE else GATE_EMPTY)).2.1

/-- The gate recorded by `_select_gate` is the requested gate. -/
theorem select_gate_gate (s : ErcfState) (gate : Int) :
    (select_gate s gate).1.gate_selected = gate := by
  rw [select_gate]
  split_ifs with h
  · exact h.symm
  · rfl

/-- Re-selecting the selected tool on its selected gate issues no actuator
command and returns the state unchanged, whatever the servo state: either the
fast path returns, or the gate select is a no-op and re-recording the tool is
the identity. -/
theorem select_tool_noop (num_tools : Nat) (tool_to_gate_map : Nat → Int)
    (s : ErcfState) (tool : Int) (h2 : tool = s.tool_selected)
    (h3 : tool_to_gate_map tool.toNat = s.gate_selected) :
    select_tool num_tools tool_to_gate_map s tool = (s, 0) := by
  simp only [select_tool]
  split_ifs with c1 c2
  · rfl
  · rfl
  · simp only [select_gate, if_pos h3, set_tool_selected]
    rw [h2]

/-- C8: tool and gate selection is idempotent.  (i) With the tool in range,
already selected, mapped to the selected gate, and the servo in a known (up or
down) state, `_select_tool` returns with zero actuator commands and the state
unchanged; (ii) `_select_gate` on the already selected gate is a no-op; (iii) a
second consecutive `_select_tool` of the same tool with no intervening state
change issues zero actuator commands and leaves the state unchanged. -/
theorem select_tool_idempotent (num_tools : Nat) (tool_to_gate_map : Nat → Int)
    (s : ErcfState) (tool : Int) :
    (¬ (tool < 0 ∨ (num_tools : Int) ≤ tool) → tool = s.tool_selected →
      tool_to_gate_map tool.toNat = s.gate_selected →
      (s.servo_state = SERVO_UP_STATE ∨ s.servo_state = SERVO_DOWN_STATE) →
      select_tool num_tools tool_to_gate_map s tool = (s, 0)) ∧
    (∀ gate, gate = s.gate_selected → select_gate s gate = (s, 0)) ∧
    select_tool num_tools tool_to_gate_map
        (select_tool num_tools tool_to_gate_map s tool).1 tool =
      ((select_tool num_tools tool_to_gate_map s tool).1, 0) := by
  refine ⟨?_, ?_, ?_⟩
  · intro hrange hts hgs hservo
    simp only [select_tool]
    rw [if_neg hrange, if_pos ⟨hts, hgs, hservo⟩]
  · intro gate hg
    rw [select_gate, if_pos hg]
  · by_cases c1 : tool < 0 ∨ (num_tools : Int) ≤ tool
    · have e1 : select_tool num_tools tool_to_gate_map s tool = (s, 0) := by
        simp only [select_tool]
        rw [if_pos c1]
      rw [e1]
      simp only [select_tool]
      rw [if_pos c1]
    · by_cases c2 : tool = s.tool_selected ∧
          tool_to_gate_map tool.toNat = s.gate_selected ∧
          (s.servo_state = SERVO_UP_STATE ∨ s.servo_state = SERVO_DOWN_STATE)
      · have e1 : select_tool num_tools tool_to_gate_map s tool = (s, 0) := by
          simp only [select_tool]
          rw [if_neg c1, if_pos c2]
        rw [e1]
        simp only [select_tool]
        rw [if_neg c1, if_pos c2]
      · have e1 : select_tool num_tools tool_to_gate_map s tool =
            (set_tool_selected (select_gate s (tool_to_gate_map tool.toNat)).1 tool,
              (select_gate s (tool_to_gate_map tool.toNat)).2) := by
          simp only [select_tool]
          rw [if_neg c1, if_neg c2]
        rw [e1]
        exact select_tool_noop num_tools tool_to_gate_map _ tool rfl
          (select_gate_gate s (tool_to_gate_map tool.toNat)).symm

/-- Witness for C8: re-selecting tool 1, already selected on gate 1 with the
servo up, is a no-op. -/
theorem select_tool_idempotent_witness :
    select_tool 4 (fun t => (t : Int))
        ⟨false, 1, 1, SERVO_UP_STATE, LOADED_STATUS_UNLOADED, true⟩ 1 =
      (⟨false, 1, 1, SERVO_UP_STATE, LOADED_STATUS_UNLOADED, true⟩, 0) :=
  (select_tool_idempotent 4 (fun t => (t : Int))
      ⟨false, 1, 1, SERVO_UP_STATE, LOADED_STATUS_UNLOADED, true⟩ 1).1
    (by decide) rfl rfl (Or.inl rfl)

/-- `servoUp` leaves the state with the servo up in both branches. -/
theorem servoUp_fst (s : ErcfState) :
    (servoUp s).1 = { s with servo_state := SERVO_UP_STATE } := by
  rw [servoUp]
  split_ifs with h
  · cases s
    simp_all
  · rfl

theorem unselect_tool_eq (s : ErcfState) :
    unselect_tool s =
      { s with servo_state := SERVO_UP_STATE, tool_selected := TOOL_UNKNOWN } := by
  rw [unselect_tool, servoUp_fst, set_tool_selected]

theorem home_selector_eq (s : ErcfState) :
    home_selector s =
      { s with gate_selected := TOOL_UNKNOWN, servo_state := SERVO_UP_STATE,
               is_homed := true } := by
  simp only [home_selector]
  rw [servoUp_fst]

/-- `_select_tool` never touches the pause lock. -/
theorem select_tool_locked (num_tools : Nat) (tool_to_gate_map : Nat → Int)
    (s : ErcfState) (tool : Int) :
    (select_tool num_tools tool_to_gate_map s tool).1.is_paused_locked =
      s.is_paused_locked := by
  simp only [select_tool, select_gate, servoUp, set_tool_selected]
  split_ifs <;> rfl

/-- For an in-range tool, `_select_tool` leaves that tool selected. -/
theorem select_tool_tool_sel (num_tools : Nat) (tool_to_gate_map : Nat → Int)
    (s : ErcfState) (tool : Int)
    (hrange : ¬ (tool < 0 ∨ (num_tools : Int) ≤ tool)) :
    (select_tool num_tools tool_to_gate_map s tool).1.tool_selected = tool := by
  simp only [select_tool]
  rw [if_neg hrange]
  split_ifs with c2
  · exact c2.1.symm
  · rfl

/-- An out-of-range tool is rejected by `_select_tool` with no effect. -/
theorem select_tool_out_of_range (num_tools : Nat) (tool_to_gate_map : Nat → Int)
    (s : ErcfState) (tool : Int) (hr : tool < 0 ∨ (num_tools : Int) ≤ tool) :
    select_tool num_tools tool_to_gate_map s tool = (s, 0) := by
  simp only [select_tool]
  rw [if_pos hr]

/-- C9 counterexample: with the pause lock held, the homing entry point does
not return immediately and does not leave the state unchanged: `cmd_ERCF_HOME`
performs no pause check, and `_home` unlocks the lock and proceeds, here
changing the selected tool and gate from 1 to 0 and clearing the lock. -/
theorem pause_gating_counterexample :
    (⟨true, 1, 1, SERVO_UP_STATE, LOADED_STATUS_UNLOADED, true⟩ :
        ErcfState).is_paused_locked = true ∧
    cmd_ERCF_HOME 4 (fun t => (t : Int)) true
        ⟨true, 1, 1, SERVO_UP_STATE, LOADED_STATUS_UNLOADED, true⟩ 0 (-1) =
      ⟨false, 0, 0, SERVO_UP_STATE, LOADED_STATUS_UNLOADED, true⟩ := by
  decide

/-- C9 amended: an entry point guarded by `_check_is_paused` (here the select
entry point, for any enabled flag) returns immediately with no actuator command
and no state change while the pause lock is held; the homing entry point is the
exception: `_home` is not pause-gated, it instead clears the lock and proceeds,
leaving the requested tool selected when it is in range and the selection
Unknown otherwise. -/
theorem pause_gating_amended (num_tools : Nat) (tool_to_gate_map : Nat → Int)
    (s : ErcfState) (tool force_unload : Int) (enabled : Bool)
    (h : s.is_paused_locked = true) :
    cmd_ERCF_SELECT_tool num_tools tool_to_gate_map enabled s tool = (s, 0) ∧
    (home num_tools tool_to_gate_map s tool force_unload).is_paused_locked = false ∧
    (home num_tools tool_to_gate_map s tool force_unload).tool_selected =
      (if 0 ≤ tool ∧ tool < (num_tools : Int) then tool else TOOL_UNKNOWN) := by
  have hu : unlock s = { s with is_paused_locked := false } := by
    rw [unlock, if_neg (by simp [h])]
  refine ⟨?_, ?_, ?_⟩
  · cases enabled <;> simp [cmd_ERCF_SELECT_tool, check_is_paused, h]
  · simp only [home]
    rw [if_pos h, hu, unselect_tool_eq, home_selector_eq]
    split_ifs
    all_goals (try rw [select_tool_locked])
    all_goals rfl
  · simp only [home]
    rw [if_pos h, hu, unselect_tool_eq, home_selector_eq]
    split_ifs
    all_goals (try rw [select_tool_tool_sel _ _ _ _ (by omega)])
    all_goals (try rw [select_tool_out_of_range _ _ _ _ (by omega)])
    all_goals (first | rfl | (exfalso; omega))

/-- Witness for C9 amended: the guarded select entry point is a no-op on a
locked state, while homing on the same state clears the lock. -/
theorem pause_gating_amended_witness :
    cmd_ERCF_SELECT_tool 4 (fun t => (t : Int)) true
        ⟨true, 1, 1, SERVO_UP_STATE, LOADED_STATUS_UNLOADED, true⟩ 2 =
      (⟨true, 1, 1, SERVO_UP_STATE, LOADED_STATUS_UNLOADED, true⟩, 0) ∧
    (home 4 (fun t => (t : Int))
        ⟨true, 1, 1, SERVO_UP_STATE, LOADED_STATUS_UNLOADED, true⟩ 2
        (-1)).is_paused_locked = false :=
  ⟨(pause_gating_amended 4 (fun t => (t : Int))
      ⟨true, 1, 1, SERVO_UP_STATE, LOADED_STATUS_UNLOADED, true⟩ 2 (-1) true rfl).1,
    (pause_gating_amended 4 (fun t => (t : Int))
      ⟨true, 1, 1, SERVO_UP_STATE, LOADED_STATUS_UNLOADED, true⟩ 2 (-1) true rfl).2.1⟩

/-- Witness for C7: instantiated at tool 1 with a round trip of 500mm commanded each
way sensed as 20000/21 mm. -/
theorem calibration_ratio_spec_witness :
    (calculcateCalibrationRatio 600 0 (20000/21) 1).ratio =
      ((calculcateCalibrationRatio 600 0 (20000/21) 1).test_length * 2) / ((20000/21 : ℚ) - 0) ∧
    ((calculcateCalibrationRatio 600 0 (20000/21) 1).persisted = true ↔
      (8 : ℚ)/10 < (calculcateCalibrationRatio 600 0 (20000/21) 1).ratio ∧
      (calculcateCalibrationRatio 600 0 (20000/21) 1).ratio < (12 : ℚ)/10) :=
  ⟨(calibration_ratio_spec 600 0 (20000/21) 1 (by norm_num)).1,
   (calibration_ratio_spec 600 0 (20000/21) 1 (by norm_num)).2.1⟩

end ERCF
